import Mathlib

/- Shallow embedding of the "AI Data Scientist Assistant" client:
   the workflow state machine of App.tsx, the CSV header derivation of
   FileUpload.tsx, the response post-processing of geminiService.ts and
   the handlers of ResultsDashboard.tsx.  JavaScript string operations
   (trim, split, toLowerCase, includes, replace of all double quotes)
   are modelled on character lists so that every definition evaluates
   inside the kernel. -/

namespace DataSciAssistant

/-- Whitespace recognised by the modelled JavaScript trim (ASCII subset). -/
def isJsSpace (c : Char) : Bool :=
  c == ' ' || c == '\t' || c == '\n' || c == '\r'

/-- Remove leading and trailing whitespace from a character list. -/
def trimChars (l : List Char) : List Char :=
  ((l.dropWhile isJsSpace).reverse.dropWhile isJsSpace).reverse

/-- Model of JavaScript `s.trim()`. -/
def jsTrim (s : String) : String :=
  String.mk (trimChars s.toList)

/-- Model of JavaScript `s.replace(/"/g, '')`: every double-quote character
    is removed, which for a one-character pattern is a filter. -/
def stripQuotes (s : String) : String :=
  String.mk (s.toList.filter (fun c => c != '"'))

/-- Split a character list at every occurrence of the separator character.
    Like JavaScript `split`, the result is never the empty list: the empty
    input yields one empty field. -/
def splitChar (sep : Char) : List Char → List (List Char)
  | [] => [[]]
  | c :: rest =>
    match splitChar sep rest with
    | [] => [[c]]
    | f :: fs => if c == sep then [] :: f :: fs else (c :: f) :: fs

/-- Model of JavaScript `s.split(sep)` for a one-character separator
    (the source only splits on a newline or a comma). -/
def jsSplit (s : String) (sep : Char) : List String :=
  (splitChar sep s.toList).map String.mk

/-- Model of JavaScript `s.toLowerCase()` (ASCII range, which covers every
    keyword the source compares against). -/
def jsToLower (s : String) : String :=
  String.mk (s.toList.map Char.toLower)

/-- Does the list start with the given pattern? -/
def leadsWith : List Char → List Char → Bool
  | [], _ => true
  | _ :: _, [] => false
  | p :: ps, c :: cs => p == c && leadsWith ps cs

/-- Does the list contain the pattern as a contiguous run? -/
def includesAux (pat : List Char) : List Char → Bool
  | [] => pat.isEmpty
  | c :: rest => leadsWith pat (c :: rest) || includesAux pat rest

/-- Model of JavaScript `s.includes(pat)`. -/
def strIncludes (s pat : String) : Bool :=
  includesAux pat.toList s.toList

/- ===== data model (types.ts) ===== -/

/-- The `AppState` enum of types.ts. -/
inductive AppState where
  | FILE_UPLOAD
  | GOAL_INPUT
  | PROCESSING
  | MODEL_SELECTION
  | RESULTS_DASHBOARD
deriving DecidableEq

/-- The `TaskType` enum of types.ts. -/
inductive TaskType where
  | CLASSIFICATION
  | REGRESSION
  | OTHER
deriving DecidableEq

/-- The `'csv' | 'image'` discriminator of `FileData.type`. -/
inductive FileKind where
  | csv
  | image
deriving DecidableEq

/-- The `FileData` interface of types.ts. -/
structure FileData where
  name : String
  type : FileKind
  content : String
  headers : Option (List String)
deriving DecidableEq

/-- The `ModelSuggestion` interface of types.ts. -/
structure ModelSuggestion where
  recommended : String
  options : List String
  more_models : List String
deriving DecidableEq

/-- A JSON scalar stored in a metrics record (`number | string`);
    JSON numbers are embedded as rationals. -/
inductive MetricValue where
  | num (value : Rat)
  | str (value : String)
deriving DecidableEq

/-- The `Metrics` interface of types.ts. -/
structure Metrics where
  metrics : List (String × MetricValue)
  confusion_matrix : Option (List (List Int))
deriving DecidableEq

/-- The per-field React state of App.tsx gathered into one record.
    `targetColumn` holds a JavaScript string-or-undefined: `none` models
    `undefined` (which `setTargetColumn` can receive when the service
    fallback indexes an empty header list); its initial value is the
    empty string. -/
structure SessionState where
  appState : AppState
  fileData : Option FileData
  userGoal : String
  taskType : TaskType
  targetColumn : Option String
  modelSuggestions : Option ModelSuggestion
  selectedModel : String
  error : Option String
deriving DecidableEq

/-- The initial values of the eight useState hooks of App.tsx. -/
def initialState : SessionState :=
  { appState := AppState.FILE_UPLOAD
    fileData := none
    userGoal := ""
    taskType := TaskType.OTHER
    targetColumn := some ""
    modelSuggestions := none
    selectedModel := ""
    error := none }

/- ===== geminiService.ts post-processing ===== -/

/-- Post-processing of `extractTargetColumn` (geminiService.ts lines 53-73).
    `goal` only shapes the prompt; `responseText` is the text returned by
    the external service.  The response is trimmed and stripped of double
    quotes; a value outside `headers` falls back to
    `headers[headers.length - 1]`, which is `undefined` (`none`) when
    `headers` is empty. -/
def extractTargetColumn (goal : String) (headers : List String) (responseText : String) : Option String :=
  let potentialTarget := stripQuotes (jsTrim responseText)
  if headers.contains potentialTarget then some potentialTarget
  else headers.getLast?

/-- The numeric-hint alternation of the regular expression in
    `generateSampleInput` (geminiService.ts line 223). -/
def numericHintKeywords : List String :=
  ["id", "year", "age", "count", "quantity", "number", "price", "value", "score", "rate", "amount"]

/-- Model of `/(id|year|age|count|quantity|number|price|value|score|rate|amount)/i.test(header)`. -/
def isNumericHint (header : String) : Bool :=
  numericHintKeywords.any (fun k => strIncludes (jsToLower header) k)

/-- The `Type.NUMBER` / `Type.STRING` schema markers used by
    `generateSampleInput`. -/
inductive SchemaType where
  | NUMBER
  | STRING
deriving DecidableEq

/-- The response schema built by `generateSampleInput`
    (geminiService.ts lines 204, 221-229): one property per header other
    than the target column, typed NUMBER when the numeric-hint pattern
    matches the header and STRING otherwise, in header order. -/
def sampleInputSchema (headers : List String) (targetColumn : String) : List (String × SchemaType) :=
  (headers.filter (fun h => h != targetColumn)).map
    (fun h => (h, if isNumericHint h then SchemaType.NUMBER else SchemaType.STRING))

/- ===== FileUpload.tsx: CSV header derivation ===== -/

/-- The header derivation of `onDrop` (FileUpload.tsx lines 34-35):
    split the content on newlines, take `lines[0]`, split it on commas
    and trim and quote-strip every field.  `jsSplit` never returns the
    empty list, so the first branch is unreachable. -/
def deriveHeaders (content : String) : List String :=
  match jsSplit content '\n' with
  | [] => []
  | firstLine :: _ => (jsSplit firstLine ',').map (fun h => stripQuotes (jsTrim h))

/-- The `FileData` built by the CSV branch of `onDrop`
    (FileUpload.tsx line 36). -/
def onDropCsv (name content : String) : FileData :=
  { name := name, type := FileKind.csv, content := content, headers := some (deriveHeaders content) }

/- ===== App.tsx: workflow state machine ===== -/

/-- `handleFileAccepted` (App.tsx lines 21-25). -/
def handleFileAccepted (s : SessionState) (data : FileData) : SessionState :=
  { s with fileData := some data, appState := AppState.GOAL_INPUT, error := none }

/-- The keyword-based task classification inlined in `handleGoalSubmit`
    (App.tsx lines 34-42). -/
def classifyTask (goal : String) : TaskType :=
  let lowerGoal := jsToLower goal
  if strIncludes lowerGoal "classify" || strIncludes lowerGoal "categorize" || strIncludes lowerGoal "identify" then
    TaskType.CLASSIFICATION
  else if strIncludes lowerGoal "predict" || strIncludes lowerGoal "forecast" || strIncludes lowerGoal "estimate" then
    TaskType.REGRESSION
  else
    TaskType.OTHER

/-- The message written by the catch block of `handleGoalSubmit`
    (App.tsx line 54). -/
def retryErrorMessage : String :=
  "Failed to get model suggestions. Please try again."

/-- The synchronous part of `handleGoalSubmit` before the first await
    (App.tsx lines 29-42): store the goal, enter PROCESSING, clear the
    error and classify the task. -/
def goalSubmitStart (s : SessionState) (goal : String) : SessionState :=
  { s with userGoal := goal, appState := AppState.PROCESSING, error := none,
           taskType := classifyTask goal }

/-- The catch block of `handleGoalSubmit` (App.tsx lines 52-56). -/
def goalSubmitCatch (s : SessionState) : SessionState :=
  { s with error := some retryErrorMessage, appState := AppState.GOAL_INPUT }

/-- `setTargetColumn(target)` after the first await (App.tsx line 46). -/
def goalSubmitApplyTarget (s : SessionState) (target : Option String) : SessionState :=
  { s with targetColumn := target }

/-- The continuation of `handleGoalSubmit` after
    `await generateModelSuggestions` (App.tsx lines 49-56): on success
    store the suggestions and enter MODEL_SELECTION, on a thrown error
    run the catch block.  The setters act on whatever the session state
    is when the promise settles. -/
def goalSubmitResume (s : SessionState) (suggestions : Except Unit ModelSuggestion) : SessionState :=
  match suggestions with
  | Except.ok sug => { s with modelSuggestions := some sug, appState := AppState.MODEL_SELECTION }
  | Except.error _ => goalSubmitCatch s

/-- Outcome of one run of `handleGoalSubmit`: the resulting session state
    and whether the target-column and model-suggestions requests were
    issued to the external service. -/
structure GoalSubmitResult where
  state : SessionState
  extractRequested : Bool
  suggestRequested : Bool
deriving DecidableEq

/-- `handleGoalSubmit` (App.tsx lines 27-57) run to completion with no
    interleaved events.  `extractResponse` is the settled outcome of the
    target-column request (`Except.ok` carries the raw response text,
    post-processed by `extractTargetColumn`); `suggestions` is the settled
    outcome of the model-suggestions request, already parsed.  The
    target-column request is issued only for a CSV file whose `headers`
    field is present (any array is truthy in JavaScript), and the
    model-suggestions request is not issued when the target-column
    request throws. -/
def handleGoalSubmit (s : SessionState) (goal : String)
    (extractResponse : Except Unit String)
    (suggestions : Except Unit ModelSuggestion) : GoalSubmitResult :=
  match s.fileData with
  | none => ⟨s, false, false⟩
  | some fd =>
    let s1 := goalSubmitStart s goal
    match fd.type, fd.headers with
    | FileKind.csv, some hs =>
      match extractResponse with
      | Except.error _ => ⟨goalSubmitCatch s1, true, false⟩
      | Except.ok raw =>
        ⟨goalSubmitResume (goalSubmitApplyTarget s1 (extractTargetColumn goal hs raw)) suggestions, true, true⟩
    | _, _ => ⟨goalSubmitResume s1 suggestions, false, true⟩

/-- `handleModelSelect` (App.tsx lines 59-62). -/
def handleModelSelect (s : SessionState) (model : String) : SessionState :=
  { s with selectedModel := model, appState := AppState.RESULTS_DASHBOARD }

/-- `handleReset` (App.tsx lines 64-73): every one of the eight state
    hooks is set back to its initial value. -/
def handleReset (_ : SessionState) : SessionState :=
  { appState := AppState.FILE_UPLOAD
    fileData := none
    userGoal := ""
    modelSuggestions := none
    selectedModel := ""
    error := none
    taskType := TaskType.OTHER
    targetColumn := some "" }

/- ===== ResultsDashboard.tsx ===== -/

/-- The `isLoading` record of ResultsDashboard.tsx line 30. -/
structure LoadingFlags where
  explanation : Bool
  metrics : Bool
  prediction : Bool
  sample : Bool
deriving DecidableEq

/-- The per-field React state of ResultsDashboard.tsx gathered into one
    record. -/
structure DashboardState where
  explanation : String
  metrics : Option Metrics
  testInputValues : List (String × String)
  prediction : String
  isLoading : LoadingFlags
  error : Option String
deriving DecidableEq

/-- Initial values of the dashboard state hooks
    (ResultsDashboard.tsx lines 26-31). -/
def initialDashboardState : DashboardState :=
  { explanation := ""
    metrics := none
    testInputValues := []
    prediction := ""
    isLoading := { explanation := true, metrics := true, prediction := false, sample := false }
    error := none }

/-- Catch message of the explanation fetch (ResultsDashboard.tsx line 46). -/
def explanationErrorMessage : String := "Failed to generate workflow explanation."

/-- Catch message of the metrics fetch (ResultsDashboard.tsx line 58). -/
def metricsErrorMessage : String := "Failed to generate model metrics."

/-- Local rejection message of `handleTestModel` (ResultsDashboard.tsx line 101). -/
def incompleteInputMessage : String := "Please fill in all input fields to test the model."

/-- Catch message of `handleTestModel` (ResultsDashboard.tsx line 112). -/
def predictionErrorMessage : String := "Failed to generate prediction."

/-- Outcome of one run of `fetchAllData`: the resulting dashboard state
    and whether the explanation and metrics requests were issued. -/
structure FetchAllDataResult where
  dash : DashboardState
  explanationRequested : Bool
  metricsRequested : Bool
deriving DecidableEq

/-- `fetchAllData` (ResultsDashboard.tsx lines 36-63): with a file
    present, the explanation request runs inside its own try/catch/finally
    and the metrics request then runs inside its own try/catch/finally,
    so a failure of either leaves the other's handling untouched.  Each
    `finally` clears that request's loading flag. -/
def fetchAllData (fileData : Option FileData) (d : DashboardState)
    (explanationResponse : Except Unit String)
    (metricsResponse : Except Unit Metrics) : FetchAllDataResult :=
  match fileData with
  | none => ⟨d, false, false⟩
  | some _ =>
    let d1 :=
      match explanationResponse with
      | Except.ok exp =>
        { d with explanation := exp, isLoading := { d.isLoading with explanation := false } }
      | Except.error _ =>
        { d with error := some explanationErrorMessage,
                 isLoading := { d.isLoading with explanation := false } }
    let d2 :=
      match metricsResponse with
      | Except.ok mets =>
        { d1 with metrics := some mets, isLoading := { d1.isLoading with metrics := false } }
      | Except.error _ =>
        { d1 with error := some metricsErrorMessage,
                  isLoading := { d1.isLoading with metrics := false } }
    ⟨d2, true, true⟩

/-- `renderMetrics` (ResultsDashboard.tsx lines 118-120) renders the
    metrics grid exactly when the metrics loading flag is down and a
    metrics value is stored. -/
def metricsRenderable (d : DashboardState) : Bool :=
  !d.isLoading.metrics && d.metrics.isSome

/-- The App state together with the dashboard state it renders;
    ResultsDashboard owns no setter for any App field, so its handlers
    leave the session component untouched. -/
structure AppView where
  session : SessionState
  dash : DashboardState
deriving DecidableEq

/-- `fetchAllData` as it acts on the whole view: the dashboard receives
    `fileData` as a prop from the session and updates only its own
    state. -/
def fetchAllDataView (sys : AppView)
    (explanationResponse : Except Unit String)
    (metricsResponse : Except Unit Metrics) : AppView × Bool × Bool :=
  let r := fetchAllData sys.session.fileData sys.dash explanationResponse metricsResponse
  ({ sys with dash := r.dash }, r.explanationRequested, r.metricsRequested)

/-- `handleTestModel` (ResultsDashboard.tsx lines 99-116): if any test
    input value is empty after trimming, set the incomplete-input message
    and stop without issuing a request (second component `false`);
    otherwise clear the error, issue the prediction request and store its
    result or the catch message. -/
def handleTestModel (d : DashboardState)
    (predictionResponse : Except Unit String) : DashboardState × Bool :=
  if (d.testInputValues.map Prod.snd).any (fun v => jsTrim v == "") then
    ({ d with error := some incompleteInputMessage }, false)
  else
    let d1 := { d with error := none, prediction := "",
                       isLoading := { d.isLoading with prediction := false } }
    match predictionResponse with
    | Except.ok p => ({ d1 with prediction := p }, true)
    | Except.error _ => ({ d1 with error := some predictionErrorMessage }, true)

/- ===== concrete sample data for witnesses and counterexamples ===== -/

/-- A small CSV payload used by witnesses. -/
def sampleCsvContent : String :=
  "date,region,amount\nd1,north,100\nd2,south,200"

/-- The file descriptor `onDrop` builds for that payload. -/
def sampleFileData : FileData := onDropCsv "sales.csv" sampleCsvContent

/-- A session that has accepted the sample file and is collecting a goal. -/
def sampleGoalSession : SessionState :=
  { initialState with fileData := some sampleFileData, appState := AppState.GOAL_INPUT }

/-- A session in the middle of PROCESSING, its suggestions request still
    pending. -/
def processingSession : SessionState :=
  { sampleGoalSession with appState := AppState.PROCESSING,
                           userGoal := "classify churn",
                           taskType := TaskType.CLASSIFICATION }

/-- A parsed model-suggestions payload used by witnesses. -/
def sampleSuggestion : ModelSuggestion :=
  { recommended := "XGBoost"
    options := ["XGBoost", "Linear Regression", "Random Forest"]
    more_models := ["K-Nearest Neighbors"] }

/-- A parsed metrics payload used by witnesses. -/
def sampleMetrics : Metrics :=
  { metrics := [("Accuracy", MetricValue.num (92 / 100))]
    confusion_matrix := some [[50, 3], [2, 45]] }

/-- The view on entry to the results dashboard for the sample session. -/
def resultsView : AppView :=
  { session := { sampleGoalSession with appState := AppState.RESULTS_DASHBOARD,
                                        selectedModel := "XGBoost" }
    dash := initialDashboardState }

/-- A test bench whose `region` value is blank after trimming. -/
def dashIncomplete : DashboardState :=
  { initialDashboardState with testInputValues := [("date", "d3"), ("region", " ")] }

/-- A test bench with every value filled in. -/
def dashComplete : DashboardState :=
  { initialDashboardState with testInputValues := [("date", "d3"), ("region", "east")] }

/- ===== helper lemmas about the string model ===== -/

theorem leadsWith_iff (p : List Char) : ∀ l : List Char, leadsWith p l = true ↔ ∃ t, l = p ++ t := by
  induction p with
  | nil => intro l; simp [leadsWith]
  | cons a ps ih =>
    intro l
    cases l with
    | nil => simp [leadsWith]
    | cons c cs =>
      simp only [leadsWith, Bool.and_eq_true, beq_iff_eq, ih, List.cons_append]
      constructor
      · rintro ⟨rfl, t, rfl⟩
        exact ⟨t, rfl⟩
      · rintro ⟨t, ht⟩
        injection ht with h1 h2
        exact ⟨h1.symm, t, h2⟩

theorem includesAux_iff (p : List Char) : ∀ l : List Char, includesAux p l = true ↔ ∃ pre post, l = pre ++ p ++ post := by
  intro l
  induction l with
  | nil =>
    simp only [includesAux, List.isEmpty_iff]
    constructor
    · rintro rfl
      exact ⟨[], [], rfl⟩
    · rintro ⟨pre, post, h⟩
      rcases List.append_eq_nil.mp h.symm with ⟨h1, h2⟩
      exact (List.append_eq_nil.mp h1).2
  | cons c rest ih =>
    simp only [includesAux, Bool.or_eq_true, leadsWith_iff, ih]
    constructor
    · rintro (⟨t, ht⟩ | ⟨pre, post, hp⟩)
      · exact ⟨[], t, by simpa using ht⟩
      · exact ⟨c :: pre, post, by simp [hp]⟩
    · rintro ⟨pre, post, hp⟩
      cases pre with
      | nil => exact Or.inl ⟨post, by simpa using hp⟩
      | cons a pre2 =>
        rw [List.cons_append, List.cons_append] at hp
        injection hp with h1 h2
        exact Or.inr ⟨pre2, post, by simpa using h2⟩

/-- `strIncludes s pat` decides exactly "pat occurs contiguously inside s". -/
theorem strIncludes_iff (s pat : String) :
    strIncludes s pat = true ↔ ∃ pre post, s.toList = pre ++ pat.toList ++ post :=
  includesAux_iff pat.toList s.toList

theorem splitChar_ne_nil (sep : Char) (l : List Char) : splitChar sep l ≠ [] := by
  induction l with
  | nil => simp [splitChar]
  | cons c rest ih =>
    simp only [splitChar]
    cases splitChar sep rest with
    | nil => simp
    | cons f fs =>
      by_cases hc : (c == sep) = true
      · simp [hc]
      · simp [hc]

/-- Like JavaScript split, `jsSplit` always yields at least one field. -/
theorem jsSplit_length_pos (s : String) (sep : Char) : 0 < (jsSplit s sep).length := by
  unfold jsSplit
  rw [List.length_map]
  exact List.length_pos.mpr (splitChar_ne_nil sep s.toList)

/-- A string whose trimmed form is not empty is itself not empty. -/
theorem string_length_pos_of_trim_ne (s : String) (h : jsTrim s ≠ "") : 0 < s.length := by
  rcases Nat.eq_zero_or_pos s.length with h0 | h1
  · exfalso
    apply h
    have hs : s = "" := by
      cases s with
      | mk data =>
        cases data with
        | nil => rfl
        | cons c cs => simp [String.length] at h0
    rw [hs]
    rfl
  · exact h1

/-- `isNumericHint` holds exactly when some keyword of the numeric-hint
    pattern occurs inside the lower-cased header. -/
theorem isNumericHint_iff (h : String) :
    isNumericHint h = true ↔
      ∃ k ∈ numericHintKeywords, ∃ pre post, (jsToLower h).toList = pre ++ k.toList ++ post := by
  unfold isNumericHint
  rw [List.any_eq_true]
  constructor
  · rintro ⟨k, hk, hs⟩
    exact ⟨k, hk, (strIncludes_iff _ _).mp hs⟩
  · rintro ⟨k, hk, hs⟩
    exact ⟨k, hk, (strIncludes_iff _ _).mpr hs⟩

/- ===== claim theorems ===== -/

/-- C3: applying the reset action in any session state, whatever its
    workflow stage, yields a session state identical to the freshly
    initialized one: stage back to the initial upload stage and every
    session field (dataset descriptor, goal text, task category, target
    column, model suggestions, selected model, last error) cleared to its
    initial value. -/
theorem handleReset_eq_initialState (s : SessionState) : handleReset s = initialState := rfl

/-- C10: submitting a goal while no dataset descriptor is present is a
    complete no-op: the session state (including the workflow stage and
    the last error) is returned unchanged and neither the target-column
    request nor the model-suggestions request is issued. -/
theorem handleGoalSubmit_no_file_noop (s : SessionState) (goal : String)
    (extractResponse : Except Unit String) (suggestions : Except Unit ModelSuggestion)
    (h : s.fileData = none) :
    handleGoalSubmit s goal extractResponse suggestions = ⟨s, false, false⟩ := by
  unfold handleGoalSubmit
  rw [h]

/-- Witness for C10: the freshly initialized session has no dataset
    descriptor, and a goal submitted there changes nothing and issues no
    request. -/
theorem handleGoalSubmit_no_file_noop_witness :
    initialState.fileData = none ∧
    handleGoalSubmit initialState "Predict churn" (Except.ok "age") (Except.error ()) =
      ⟨initialState, false, false⟩ :=
  ⟨rfl, handleGoalSubmit_no_file_noop initialState "Predict churn" (Except.ok "age") (Except.error ()) rfl⟩

/-- C4: the task classifier is a pure function of the goal text; if the
    lower-cased goal contains any of "classify", "categorize", "identify"
    it returns CLASSIFICATION; otherwise, if it contains any of "predict",
    "forecast", "estimate" it returns REGRESSION; otherwise OTHER.  In
    particular a goal containing both "classify" and "predict" resolves
    to CLASSIFICATION, and a goal containing none of the six keywords
    resolves to OTHER. -/
theorem classifyTask_keyword_rules :
    (∀ goal : String,
      (strIncludes (jsToLower goal) "classify" || strIncludes (jsToLower goal) "categorize" ||
        strIncludes (jsToLower goal) "identify") = true →
      classifyTask goal = TaskType.CLASSIFICATION) ∧
    (∀ goal : String,
      (strIncludes (jsToLower goal) "classify" || strIncludes (jsToLower goal) "categorize" ||
        strIncludes (jsToLower goal) "identify") = false →
      (strIncludes (jsToLower goal) "predict" || strIncludes (jsToLower goal) "forecast" ||
        strIncludes (jsToLower goal) "estimate") = true →
      classifyTask goal = TaskType.REGRESSION) ∧
    (∀ goal : String,
      strIncludes (jsToLower goal) "classify" = false →
      strIncludes (jsToLower goal) "categorize" = false →
      strIncludes (jsToLower goal) "identify" = false →
      strIncludes (jsToLower goal) "predict" = false →
      strIncludes (jsToLower goal) "forecast" = false →
      strIncludes (jsToLower goal) "estimate" = false →
      classifyTask goal = TaskType.OTHER) ∧
    (∀ goal : String,
      strIncludes (jsToLower goal) "classify" = true →
      strIncludes (jsToLower goal) "predict" = true →
      classifyTask goal = TaskType.CLASSIFICATION) := by
  refine ⟨?_, ?_, ?_, ?_⟩
  · intro goal hc
    simp [classifyTask, hc]
  · intro goal hc hr
    simp [classifyTask, hc, hr]
  · intro goal h1 h2 h3 h4 h5 h6
    simp [classifyTask, h1, h2, h3, h4, h5, h6]
  · intro goal hc hp
    simp [classifyTask, hc]

/-- Witness for C4: a goal with both "classify" and "predict" resolves to
    CLASSIFICATION, and a goal with none of the six keywords resolves to
    OTHER. -/
theorem classifyTask_keyword_rules_witness :
    strIncludes (jsToLower "Classify customers and predict churn") "classify" = true ∧
    strIncludes (jsToLower "Classify customers and predict churn") "predict" = true ∧
    classifyTask "Classify customers and predict churn" = TaskType.CLASSIFICATION ∧
    strIncludes (jsToLower "Find patterns in the data") "classify" = false ∧
    classifyTask "Find patterns in the data" = TaskType.OTHER := by
  refine ⟨by decide, by decide, ?_, by decide, ?_⟩
  · exact classifyTask_keyword_rules.2.2.2 "Classify customers and predict churn" (by decide) (by decide)
  · exact classifyTask_keyword_rules.2.2.1 "Find patterns in the data"
      (by decide) (by decide) (by decide) (by decide) (by decide) (by decide)

/-- C5 counterexample: for empty content (content with no lines) the
    derived column names are the one-element sequence containing the
    empty string, not the empty sequence: JavaScript split never yields
    an empty array, so `lines[0]` always exists. -/
theorem deriveHeaders_empty_content_cex :
    deriveHeaders "" = [""] ∧ (deriveHeaders "").length = 1 ∧ deriveHeaders "" ≠ [] := by
  refine ⟨by decide, by decide, ?_⟩
  intro h
  have h1 : deriveHeaders "" = [""] := by decide
  rw [h1] at h
  exact List.cons_ne_nil "" [] h

/-- C5 (amended): the derived column names equal the first line of the
    content split on commas with every field trimmed and quote-stripped,
    and the example input evaluates as the claim states; however the
    derived sequence is never empty — for empty content it is the
    one-element sequence containing the empty string. -/
theorem deriveHeaders_spec :
    deriveHeaders "a,\"b\",c\nrow1" = ["a", "b", "c"] ∧
    (∀ content : String,
      deriveHeaders content =
        (jsSplit ((jsSplit content '\n').headD "") ',').map (fun h => stripQuotes (jsTrim h))) ∧
    (∀ content : String, 0 < (deriveHeaders content).length) ∧
    deriveHeaders "" = [""] := by
  refine ⟨by decide, ?_, ?_, by decide⟩
  · intro content
    have hpos := jsSplit_length_pos content '\n'
    cases hsplit : jsSplit content '\n' with
    | nil =>
      rw [hsplit] at hpos
      simp at hpos
    | cons firstLine rest =>
      simp [deriveHeaders, hsplit, List.headD]
  · intro content
    have hpos := jsSplit_length_pos content '\n'
    cases hsplit : jsSplit content '\n' with
    | nil =>
      rw [hsplit] at hpos
      simp at hpos
    | cons firstLine rest =>
      simp only [deriveHeaders, hsplit, List.length_map]
      exact jsSplit_length_pos firstLine ','

/-- C2 counterexample: with an empty column-name list the cleaned
    response is never a member, and the fallback `headers[length - 1]`
    is JavaScript `undefined` (`none`), so the function does not return
    a member of the supplied list. -/
theorem extractTargetColumn_empty_cex :
    extractTargetColumn "predict the price" [] "price" = none ∧
    ¬ ∃ t, extractTargetColumn "predict the price" [] "price" = some t ∧ t ∈ ([] : List String) := by
  refine ⟨by decide, ?_⟩
  rintro ⟨t, _, hmem⟩
  exact List.not_mem_nil t hmem

/-- C2 (amended): for every goal, every NON-EMPTY list of column names
    and every response text of the external service, the post-processing
    of the target-column request returns a member of the list: the
    response is trimmed and quote-stripped, a cleaned value that is a
    member is returned verbatim, and otherwise the last element of the
    list is returned. -/
theorem extractTargetColumn_mem (goal responseText : String) (headers : List String)
    (h : headers ≠ []) :
    ∃ t, extractTargetColumn goal headers responseText = some t ∧ t ∈ headers ∧
      (stripQuotes (jsTrim responseText) ∈ headers → t = stripQuotes (jsTrim responseText)) ∧
      (stripQuotes (jsTrim responseText) ∉ headers → headers.getLast? = some t) := by
  by_cases hc : headers.contains (stripQuotes (jsTrim responseText)) = true
  · refine ⟨stripQuotes (jsTrim responseText), ?_, List.elem_iff.mp hc, fun _ => rfl,
      fun hn => absurd (List.elem_iff.mp hc) hn⟩
    unfold extractTargetColumn
    rw [if_pos hc]
  · refine ⟨headers.getLast h, ?_, List.getLast_mem h,
      fun hm => absurd (List.elem_iff.mpr hm) hc,
      fun _ => List.getLast?_eq_getLast_of_ne_nil h⟩
    unfold extractTargetColumn
    rw [if_neg hc, List.getLast?_eq_getLast_of_ne_nil h]

/-- Witness for C2: a quoted, hallucinated response over a concrete
    header list is clamped to a member (the last column). -/
theorem extractTargetColumn_mem_witness :
    (["date", "region", "amount"] ≠ ([] : List String)) ∧
    (∃ t, extractTargetColumn "Forecast monthly sales" ["date", "region", "amount"] " \"sales\" " = some t ∧
      t ∈ ["date", "region", "amount"] ∧
      (stripQuotes (jsTrim " \"sales\" ") ∈ ["date", "region", "amount"] →
        t = stripQuotes (jsTrim " \"sales\" ")) ∧
      (stripQuotes (jsTrim " \"sales\" ") ∉ ["date", "region", "amount"] →
        (["date", "region", "amount"] : List String).getLast? = some t)) :=
  ⟨by decide, extractTargetColumn_mem "Forecast monthly sales" " \"sales\" " ["date", "region", "amount"] (by decide)⟩

/-- C1 counterexample: a partial result of the failed attempt survives
    the revert.  Before the attempt the task category is OTHER; the goal
    "classify churn" is submitted, the target-column request succeeds
    and the model-suggestions request fails; after the revert to the
    goal-collection stage the task category derived during the failed
    attempt (CLASSIFICATION) is still in the session, so not every
    partial result other than the target column was discarded. -/
theorem goalSubmit_taskType_retained_cex :
    sampleGoalSession.taskType = TaskType.OTHER ∧
    (handleGoalSubmit sampleGoalSession "classify churn" (Except.ok "region") (Except.error ())).state.appState =
      AppState.GOAL_INPUT ∧
    (handleGoalSubmit sampleGoalSession "classify churn" (Except.ok "region") (Except.error ())).state.taskType =
      TaskType.CLASSIFICATION := by
  refine ⟨by decide, by decide, by decide⟩

/-- C1 (amended): when the target-column request or the model-suggestions
    request fails during PROCESSING_GOAL, the machine returns to the
    goal-collection stage with the generic non-empty retry message, the
    submitted goal text is preserved, the target column committed by a
    successful identification is retained (otherwise the previous target
    column is kept), the model-suggestions field is left unchanged from
    before the attempt — and the task category derived in the synchronous
    classification step is also retained, not discarded.  The first
    conjunct covers a failing identification on a CSV file (the
    suggestions request is then never issued), the second a failing
    suggestions request after a successful identification, the third a
    failing suggestions request for an image file. -/
theorem goalSubmit_failure_recovery (s : SessionState) (fd : FileData) (goal raw : String)
    (suggestions : Except Unit ModelSuggestion)
    (hfd : s.fileData = some fd) :
    (∀ hs : List String, fd.type = FileKind.csv → fd.headers = some hs →
      (handleGoalSubmit s goal (Except.error ()) suggestions).state.appState = AppState.GOAL_INPUT ∧
      (handleGoalSubmit s goal (Except.error ()) suggestions).state.error = some retryErrorMessage ∧
      0 < retryErrorMessage.length ∧
      (handleGoalSubmit s goal (Except.error ()) suggestions).state.userGoal = goal ∧
      (handleGoalSubmit s goal (Except.error ()) suggestions).state.targetColumn = s.targetColumn ∧
      (handleGoalSubmit s goal (Except.error ()) suggestions).state.modelSuggestions = s.modelSuggestions ∧
      (handleGoalSubmit s goal (Except.error ()) suggestions).state.taskType = classifyTask goal ∧
      (handleGoalSubmit s goal (Except.error ()) suggestions).suggestRequested = false) ∧
    (∀ hs : List String, fd.type = FileKind.csv → fd.headers = some hs →
      (handleGoalSubmit s goal (Except.ok raw) (Except.error ())).state.appState = AppState.GOAL_INPUT ∧
      (handleGoalSubmit s goal (Except.ok raw) (Except.error ())).state.error = some retryErrorMessage ∧
      (handleGoalSubmit s goal (Except.ok raw) (Except.error ())).state.userGoal = goal ∧
      (handleGoalSubmit s goal (Except.ok raw) (Except.error ())).state.targetColumn =
        extractTargetColumn goal hs raw ∧
      (handleGoalSubmit s goal (Except.ok raw) (Except.error ())).state.modelSuggestions = s.modelSuggestions ∧
      (handleGoalSubmit s goal (Except.ok raw) (Except.error ())).state.taskType = classifyTask goal) ∧
    (fd.type = FileKind.image →
      ∀ e : Except Unit String,
      (handleGoalSubmit s goal e (Except.error ())).state.appState = AppState.GOAL_INPUT ∧
      (handleGoalSubmit s goal e (Except.error ())).state.error = some retryErrorMessage ∧
      (handleGoalSubmit s goal e (Except.error ())).state.userGoal = goal ∧
      (handleGoalSubmit s goal e (Except.error ())).state.targetColumn = s.targetColumn ∧
      (handleGoalSubmit s goal e (Except.error ())).state.modelSuggestions = s.modelSuggestions ∧
      (handleGoalSubmit s goal e (Except.error ())).state.taskType = classifyTask goal) := by
  refine ⟨?_, ?_, ?_⟩
  · intro hs hk hh
    simp only [handleGoalSubmit, hfd, hk, hh]
    refine ⟨?_, ?_, ?_, ?_, ?_, ?_, ?_, ?_⟩ <;> first | rfl | trivial
  · intro hs hk hh
    simp only [handleGoalSubmit, hfd, hk, hh, goalSubmitResume]
    refine ⟨?_, ?_, ?_, ?_, ?_, ?_⟩ <;> rfl
  · intro hk e
    simp only [handleGoalSubmit, hfd, hk, goalSubmitResume]
    refine ⟨?_, ?_, ?_, ?_, ?_, ?_⟩ <;> rfl

/-- Witness for C1: the sample CSV session with goal "Forecast monthly
    sales", successful identification of "amount" and a failing
    suggestions request. -/
theorem goalSubmit_failure_recovery_witness :
    sampleGoalSession.fileData = some sampleFileData ∧
    sampleFileData.type = FileKind.csv ∧
    sampleFileData.headers = some ["date", "region", "amount"] ∧
    ((handleGoalSubmit sampleGoalSession "Forecast monthly sales" (Except.ok "amount") (Except.error ())).state.appState =
        AppState.GOAL_INPUT ∧
      (handleGoalSubmit sampleGoalSession "Forecast monthly sales" (Except.ok "amount") (Except.error ())).state.error =
        some retryErrorMessage ∧
      (handleGoalSubmit sampleGoalSession "Forecast monthly sales" (Except.ok "amount") (Except.error ())).state.userGoal =
        "Forecast monthly sales" ∧
      (handleGoalSubmit sampleGoalSession "Forecast monthly sales" (Except.ok "amount") (Except.error ())).state.targetColumn =
        extractTargetColumn "Forecast monthly sales" ["date", "region", "amount"] "amount" ∧
      (handleGoalSubmit sampleGoalSession "Forecast monthly sales" (Except.ok "amount") (Except.error ())).state.modelSuggestions =
        sampleGoalSession.modelSuggestions ∧
      (handleGoalSubmit sampleGoalSession "Forecast monthly sales" (Except.ok "amount") (Except.error ())).state.taskType =
        classifyTask "Forecast monthly sales") := by
  refine ⟨rfl, rfl, by decide, ?_⟩
  exact (goalSubmit_failure_recovery sampleGoalSession sampleFileData "Forecast monthly sales" "amount"
    (Except.error ()) rfl).2.1 ["date", "region", "amount"] rfl (by decide)

/-- C6: the source has no stale-response guard.  Starting from a session
    in the middle of PROCESSING whose model-suggestions request is still
    pending, the user resets (yielding exactly the freshly initialized
    state); when the pending request later resolves, the awaited
    continuation of handleGoalSubmit runs against the fresh state and
    overwrites its stage (to MODEL_SELECTION) and its model-suggestions
    field — the fields were FILE_UPLOAD and none after the reset. -/
theorem staleSuggestions_applied_after_reset :
    handleReset processingSession = initialState ∧
    initialState.appState = AppState.FILE_UPLOAD ∧
    initialState.modelSuggestions = none ∧
    (goalSubmitResume (handleReset processingSession) (Except.ok sampleSuggestion)).appState =
      AppState.MODEL_SELECTION ∧
    (goalSubmitResume (handleReset processingSession) (Except.ok sampleSuggestion)).modelSuggestions =
      some sampleSuggestion := by
  refine ⟨rfl, rfl, rfl, by decide, by decide⟩

/-- C7: on the results dashboard the explanation request and the metrics
    request fail independently.  If the explanation request fails while
    the metrics request succeeds, the metrics request is still issued,
    its result is stored and renderable, the last error is the non-empty
    explanation failure message, and the session (in particular its
    workflow stage) is untouched, so the stage never reverts.
    Symmetrically, a metrics failure leaves a successful explanation
    stored. -/
theorem fetchAllData_independent_failures (sys : AppView) (fd : FileData) (m : Metrics) (e : String)
    (hfd : sys.session.fileData = some fd) :
    ((fetchAllDataView sys (Except.error ()) (Except.ok m)).1.session = sys.session ∧
     (fetchAllDataView sys (Except.error ()) (Except.ok m)).1.session.appState = sys.session.appState ∧
     (fetchAllDataView sys (Except.error ()) (Except.ok m)).2.2 = true ∧
     (fetchAllDataView sys (Except.error ()) (Except.ok m)).1.dash.metrics = some m ∧
     metricsRenderable (fetchAllDataView sys (Except.error ()) (Except.ok m)).1.dash = true ∧
     (fetchAllDataView sys (Except.error ()) (Except.ok m)).1.dash.error = some explanationErrorMessage ∧
     0 < explanationErrorMessage.length) ∧
    ((fetchAllDataView sys (Except.ok e) (Except.error ())).1.session = sys.session ∧
     (fetchAllDataView sys (Except.ok e) (Except.error ())).1.dash.explanation = e ∧
     (fetchAllDataView sys (Except.ok e) (Except.error ())).1.dash.metrics = sys.dash.metrics ∧
     (fetchAllDataView sys (Except.ok e) (Except.error ())).1.dash.error = some metricsErrorMessage ∧
     0 < metricsErrorMessage.length) := by
  constructor
  · simp only [fetchAllDataView, fetchAllData, hfd, metricsRenderable]
    refine ⟨?_, ?_, ?_, ?_, ?_, ?_, ?_⟩ <;> first | rfl | trivial
  · simp only [fetchAllDataView, fetchAllData, hfd]
    refine ⟨?_, ?_, ?_, ?_, ?_⟩ <;> first | rfl | trivial

/-- Witness for C7: the sample results view with a failing explanation
    request and a successful metrics request, and the symmetric case. -/
theorem fetchAllData_independent_failures_witness :
    resultsView.session.fileData = some sampleFileData ∧
    (((fetchAllDataView resultsView (Except.error ()) (Except.ok sampleMetrics)).1.session = resultsView.session ∧
      (fetchAllDataView resultsView (Except.error ()) (Except.ok sampleMetrics)).1.session.appState = resultsView.session.appState ∧
      (fetchAllDataView resultsView (Except.error ()) (Except.ok sampleMetrics)).2.2 = true ∧
      (fetchAllDataView resultsView (Except.error ()) (Except.ok sampleMetrics)).1.dash.metrics = some sampleMetrics ∧
      metricsRenderable (fetchAllDataView resultsView (Except.error ()) (Except.ok sampleMetrics)).1.dash = true ∧
      (fetchAllDataView resultsView (Except.error ()) (Except.ok sampleMetrics)).1.dash.error = some explanationErrorMessage ∧
      0 < explanationErrorMessage.length) ∧
     ((fetchAllDataView resultsView (Except.ok "workflow text") (Except.error ())).1.session = resultsView.session ∧
      (fetchAllDataView resultsView (Except.ok "workflow text") (Except.error ())).1.dash.explanation = "workflow text" ∧
      (fetchAllDataView resultsView (Except.ok "workflow text") (Except.error ())).1.dash.metrics = resultsView.dash.metrics ∧
      (fetchAllDataView resultsView (Except.ok "workflow text") (Except.error ())).1.dash.error = some metricsErrorMessage ∧
      0 < metricsErrorMessage.length)) :=
  ⟨rfl, fetchAllData_independent_failures resultsView sampleFileData sampleMetrics "workflow text" rfl⟩

/-- C8: a test-bench attempt with any feature value empty after trimming
    is rejected locally — the incomplete-input message (which is
    non-empty) is stored and no prediction request is issued — and the
    prediction request is issued only when every feature value is
    non-empty. -/
theorem handleTestModel_incomplete_guard (d : DashboardState) (r : Except Unit String) :
    ((∃ p, p ∈ d.testInputValues ∧ jsTrim p.2 = "") →
      (handleTestModel d r).2 = false ∧
      (handleTestModel d r).1.error = some incompleteInputMessage ∧
      0 < incompleteInputMessage.length) ∧
    ((handleTestModel d r).2 = true → ∀ p, p ∈ d.testInputValues → 0 < p.2.length) := by
  constructor
  · rintro ⟨p, hp, hv⟩
    have hany : (d.testInputValues.map Prod.snd).any (fun v => jsTrim v == "") = true := by
      rw [List.any_eq_true]
      exact ⟨p.2, List.mem_map_of_mem Prod.snd hp, by simp [hv]⟩
    unfold handleTestModel
    rw [if_pos hany]
    exact ⟨rfl, rfl, by decide⟩
  · intro hissued p hp
    by_cases hany : (d.testInputValues.map Prod.snd).any (fun v => jsTrim v == "") = true
    · exfalso
      unfold handleTestModel at hissued
      rw [if_pos hany] at hissued
      simp at hissued
    · have hall : ¬ ∃ v ∈ d.testInputValues.map Prod.snd, (jsTrim v == "") = true := by
        rw [← List.any_eq_true]
        exact hany
      apply string_length_pos_of_trim_ne
      intro htrim
      exact hall ⟨p.2, List.mem_map_of_mem Prod.snd hp, by simp [htrim]⟩

/-- Witness for C8: a bench with one blank value is rejected without a
    request; a fully filled bench issues the request and indeed has only
    non-empty values. -/
theorem handleTestModel_incomplete_guard_witness :
    (∃ p, p ∈ dashIncomplete.testInputValues ∧ jsTrim p.2 = "") ∧
    ((handleTestModel dashIncomplete (Except.ok "42")).2 = false ∧
     (handleTestModel dashIncomplete (Except.ok "42")).1.error = some incompleteInputMessage ∧
     0 < incompleteInputMessage.length) ∧
    (handleTestModel dashComplete (Except.ok "42")).2 = true ∧
    (∀ p, p ∈ dashComplete.testInputValues → 0 < p.2.length) := by
  refine ⟨⟨("region", " "), by decide, by decide⟩, ?_, by decide, ?_⟩
  · exact (handleTestModel_incomplete_guard dashIncomplete (Except.ok "42")).1
      ⟨("region", " "), by decide, by decide⟩
  · exact (handleTestModel_incomplete_guard dashComplete (Except.ok "42")).2 (by decide)

/-- C9: in the sample-row request schema every feature column is typed
    NUMBER exactly when its name contains, case-insensitively, one of the
    literal numeric-hint substrings, and STRING otherwise; in particular
    "Price" is typed NUMBER and "Category" is typed STRING. -/
theorem sampleInputSchema_numeric_hint :
    (∀ (headers : List String) (targetColumn h : String) (ty : SchemaType),
      (h, ty) ∈ sampleInputSchema headers targetColumn →
      (ty = SchemaType.NUMBER ↔
        ∃ k ∈ numericHintKeywords, ∃ pre post, (jsToLower h).toList = pre ++ k.toList ++ post)) ∧
    sampleInputSchema ["Price", "Category", "Sales"] "Sales" =
      [("Price", SchemaType.NUMBER), ("Category", SchemaType.STRING)] := by
  constructor
  · intro headers targetColumn h ty hmem
    simp only [sampleInputSchema, List.mem_map, List.mem_filter] at hmem
    obtain ⟨h0, _, heq⟩ := hmem
    injection heq with hname hty
    subst hname
    rw [← hty, ← isNumericHint_iff]
    by_cases hn : isNumericHint h0 = true
    · simp [hn]
    · simp [hn]
  · decide

/-- Witness for C9: the "Price" entry of a concrete schema is typed
    NUMBER, and that typing is equivalent to a numeric-hint keyword
    occurring inside the lower-cased name. -/
theorem sampleInputSchema_numeric_hint_witness :
    (("Price", SchemaType.NUMBER) ∈ sampleInputSchema ["Price", "Category", "Sales"] "Sales") ∧
    (SchemaType.NUMBER = SchemaType.NUMBER ↔
      ∃ k ∈ numericHintKeywords, ∃ pre post, (jsToLower "Price").toList = pre ++ k.toList ++ post) :=
  ⟨by decide, sampleInputSchema_numeric_hint.1 ["Price", "Category", "Sales"] "Sales" "Price"
    SchemaType.NUMBER (by decide)⟩

end DataSciAssistant
